import Mathlib

/-!
Shallow embedding of `script.py` (pyRevit add-in "Duplicate/Rename/Template"):
the script duplicates the selected 3D views of the active Revit document,
renames each duplicate from a discipline prefix, and assigns a view template
looked up by name.  The Revit host is modelled explicitly: a document is a
list of views plus a fresh-id counter, and the host services the script uses
(view duplication, the uniqueness check behind `View.Name` assignment, the
`FilteredElementCollector` scan) are modelled as functions on that state.
-/

namespace RevitDup

/-- A view of the Revit document as the script observes it: an element id,
a name, whether the element is a `View3D`, and the id of the view template
assigned to it (`ViewTemplateId`), if any. -/
structure RView where
  id : Nat
  name : String
  is3D : Bool
  viewTemplateId : Option Nat
deriving DecidableEq

/-- The Revit document: its views in collector order, and the next element id
the host hands out when an element is created. -/
structure Doc where
  views : List RView
  nextId : Nat
deriving DecidableEq

/-- Host behaviour the script depends on but does not control: the name Revit
gives a duplicated view, and whether a `View.Duplicate` call raises (the
exception message) for a given view in a given document state. -/
structure Host where
  dupName : String → String
  dupErr : Doc → Nat → Option String

/-- Line 44: `options = ['Architectural', 'Mechanical', 'Plumbing',
'Fire Protection', 'Electrical']`. -/
def options : List String :=
  ["Architectural", "Mechanical", "Plumbing", "Fire Protection", "Electrical"]

/-- Lines 51-57: the `system_mapping` dict, as an association list
(system, naming prefix, view-template name), in source order. -/
def system_mapping : List (String × String × String) :=
  [("Architectural", "A_", "ARCHITECTURE GLUE"),
   ("Mechanical", "MD_", "MECHANICAL GLUE"),
   ("Plumbing", "PL_", "PLUMBING GLUE"),
   ("Fire Protection", "FP_", "FIRE PROTECTION GLUE"),
   ("Electrical", "EE_", "ELECTRICAL GLUE")]

/-- Lines 60-61: `system_mapping[system]['prefix']` /
`...['template']` — a pure dictionary lookup. -/
def lookupSystem (s : String) : Option (String × String) :=
  (system_mapping.find? (fun e => e.1 == s)).map (fun e => e.2)

/-- Python `old_name.find('_')` followed by the slice `old_name[idx + 1:]`:
the characters after the first underscore, or `none` when there is none. -/
def afterFirstUnderscore : List Char → Option (List Char)
  | [] => none
  | c :: cs => if c = '_' then some cs else afterFirstUnderscore cs

/-- Lines 77-83: the new name of a duplicated view — the prefix followed by
the part of the old name after its first underscore, or by the whole old
name when it has no underscore. -/
def computeNewName (pre old : String) : String :=
  match afterFirstUnderscore old.data with
  | some rest => pre ++ String.mk rest
  | none => pre ++ old

/-- The host-enforced view-name uniqueness behind `duplicated_view.Name = n`:
the assignment raises exactly when another view already bears the name. -/
def nameTaken (d : Doc) (vid : Nat) (n : String) : Bool :=
  d.views.any (fun v => v.id != vid && v.name == n)

/-- A successful `View.Name` assignment: view `vid` gets name `n`. -/
def setViewName (d : Doc) (vid : Nat) (n : String) : Doc :=
  Doc.mk (d.views.map (fun v => if v.id = vid then RView.mk v.id n v.is3D v.viewTemplateId else v))
    d.nextId

/-- Line 106: `duplicated_view.ViewTemplateId = new_template.Id`. -/
def setViewTemplate (d : Doc) (vid : Nat) (tid : Nat) : Doc :=
  Doc.mk (d.views.map (fun v => if v.id = vid then RView.mk v.id v.name v.is3D (some tid) else v))
    d.nextId

/-- Dereferencing a view object / `doc.GetElement`: the document's view with
the given element id. -/
def findView (d : Doc) (vid : Nat) : Option RView :=
  d.views.find? (fun v => v.id == vid)

/-- Line 73: `view.Duplicate(ViewDuplicateOption.Duplicate)` — the host
appends a copy of the view (same kind, template assignment copied, a
host-chosen name) under a fresh element id, and returns that id. -/
def duplicateView (h : Host) (d : Doc) (v : RView) : Doc × Nat :=
  (Doc.mk (d.views ++ [RView.mk d.nextId (h.dupName v.name) v.is3D v.viewTemplateId])
    (d.nextId + 1), d.nextId)

/-- Lines 86-92: the rename retry loop.  `for i in range(20): try
duplicated_view.Name = new_name; print; break / except: new_name += '*'`.
Returns the document, the final value of the `new_name` variable, and the
console lines printed. -/
def renameLoop (d : Doc) (vid : Nat) (old : String) : String → Nat → Doc × String × List String
  | n, 0 => (d, n, [])
  | n, fuel + 1 =>
    if nameTaken d vid n then renameLoop d vid old (n ++ "*") fuel
    else (setViewName d vid n, n, [old ++ " -> " ++ n])

/-- Lines 95-102: `FilteredElementCollector(doc).OfClass(View)` then the
first collected view whose `Name` equals the template name exactly. -/
def findTemplate (d : Doc) (tname : String) : Option RView :=
  d.views.find? (fun t => t.name == tname)

/-- Lines 104-109: assign the found template to the duplicated view, or print
the `Template '...' not found for '...'` diagnostic.  Returns the document
and the console lines printed. -/
def templatePhase (tname : String) (d : Doc) (did : Nat) (nn : String) : Doc × List String :=
  match findTemplate d tname with
  | some t => (setViewTemplate d did t.id, [])
  | none => (d, ["Template \x27" ++ tname ++ "\x27 not found for \x27" ++ nn ++ "\x27"])

/-- Lines 70-111: one iteration of the `for view in sel_views` loop, on the
running state (document, duplicated_count, console output).  Skips entries
that are not 3D views; a raising `Duplicate` call propagates as `.error`. -/
def step (h : Host) (pre tname : String) (st : Doc × Nat × List String) (vid : Nat) :
    Except String (Doc × Nat × List String) :=
  let (d, cnt, out) := st
  match findView d vid with
  | none => Except.ok (d, cnt, out)
  | some v =>
    if v.is3D then
      match h.dupErr d v.id with
      | some e => Except.error e
      | none =>
        let (d1, did) := duplicateView h d v
        let new_name := computeNewName pre v.name
        let (d2, nn, log) := renameLoop d1 did v.name new_name 20
        let (d3, diag) := templatePhase tname d2 did nn
        Except.ok (d3, cnt + 1, out ++ log ++ diag)
    else Except.ok (d, cnt, out)

/-- The whole `for view in sel_views` loop inside the `try`: the first
exception aborts the remaining iterations. -/
def runLoop (h : Host) (pre tname : String) :
    Doc × Nat × List String → List Nat → Except String (Doc × Nat × List String)
  | st, [] => Except.ok st
  | st, vid :: rest =>
    match step h pre tname st vid with
    | Except.error e => Except.error e
    | Except.ok st' => runLoop h pre tname st' rest

/-- What a run of `main()` leaves behind: the document (committed, or as it
was before the transaction after a rollback), the modal alerts shown, the
console lines printed, and whether `exitscript` ended the run early. -/
structure RunResult where
  doc : Doc
  alerts : List String
  console : List String
  exited : Bool
deriving DecidableEq

/-- Lines 35-121: `main()`.  `sel` is the element-id list the view picker
returned, `system` the discipline choice (`none` when the dialog was
dismissed).  An empty selection or a missing choice alerts and exits before
the transaction; otherwise the loop runs inside the transaction, which is
committed on success (count alert) and rolled back on an exception (error
alert quoting the exception's message).  An unknown discipline string would
raise `KeyError` before the transaction opens (unreachable through the
dialog), leaving the document untouched with no alert. -/
def main (h : Host) (d : Doc) (sel : List Nat) (system : Option String) : RunResult :=
  if sel.isEmpty then RunResult.mk d ["No Views Selected"] [] true
  else
    match system with
    | none => RunResult.mk d ["No system selected"] [] true
    | some s =>
      match lookupSystem s with
      | none => RunResult.mk d [] [] true
      | some (pre, tname) =>
        match runLoop h pre tname (d, 0, []) sel with
        | Except.ok (d2, cnt, out) =>
          RunResult.mk d2 [toString cnt ++ " views duplicated, renamed, and template applied."]
            out false
        | Except.error e => RunResult.mk d ["An error occurred: " ++ e] [] false

/-- The successive candidate names of the rename loop: the computed name with
`k` asterisks appended. -/
def cand (n : String) : Nat → String
  | 0 => n
  | k + 1 => cand n k ++ "*"

/-- Well-formedness the host guarantees: every element id in the document is
below the fresh-id counter. -/
@[reducible] def docWF (d : Doc) : Prop := ∀ v ∈ d.views, v.id < d.nextId

/-- Document `d` is `d0` with some views of fresh ids appended; the views
of `d0` are still present, in place and untouched. -/
def DocExtends (d0 d : Doc) : Prop :=
  d0.nextId ≤ d.nextId ∧
  ∃ extra : List RView, d.views = d0.views ++ extra ∧ ∀ x ∈ extra, d0.nextId ≤ x.id

/-- Whether the selection entry `vid` denotes a 3D view of document `d`. -/
def is3DSel (d : Doc) (vid : Nat) : Bool :=
  match findView d vid with
  | some v => v.is3D
  | none => false

/-- A host whose calls never raise, duplicating `X` under the name
`X Copy 1`. -/
def hostOk : Host := Host.mk (fun s => s ++ " Copy 1") (fun _ _ => none)

/-- A host whose `View.Duplicate` always raises with message `"boom"`. -/
def hostBoom : Host := Host.mk (fun s => s ++ " Copy 1") (fun _ _ => some "boom")

/-- A small document: one 3D view, one non-3D view, and a view named like
the Architectural template. -/
def docW : Doc :=
  Doc.mk [RView.mk 0 "V_1" true none, RView.mk 1 "Sheet" false none,
    RView.mk 2 "ARCHITECTURE GLUE" false none] 3

/-- Document `docW` after a completed run on selection `[0, 1]` for Architectural:
the one 3D view was duplicated as view 3, renamed `A_1`, and given the
template id 2. -/
def docWAfter : Doc :=
  Doc.mk [RView.mk 0 "V_1" true none, RView.mk 1 "Sheet" false none,
    RView.mk 2 "ARCHITECTURE GLUE" false none, RView.mk 3 "A_1" true (some 2)] 4

/-- A document in which the first rename attempt of the duplicated view
(id 5) collides with view `"A_1"` and the second attempt is free. -/
def docOneStar : Doc :=
  Doc.mk [RView.mk 0 "A_1" true none, RView.mk 5 "V_1 Copy 1" true none] 6

/-- A document holding every one of the 20 candidate names `"B"`, `"B*"`,
..., `"B" ++ 19 asterisks`, so that every rename attempt of view 100
collides. -/
def docAllTaken : Doc :=
  Doc.mk ((List.range 20).map (fun i => RView.mk i (cand "B" i) false none)
    ++ [RView.mk 100 "B Copy 1" false none]) 101

/-- A document whose 3D view `V_1` (id 50) will see all 20 rename candidates
`A_1`, `A_1*`, ... taken by views 0-19. -/
def docBlocked : Doc :=
  Doc.mk ((List.range 20).map (fun i => RView.mk i (cand "A_1" i) false none)
    ++ [RView.mk 50 "V_1" true none]) 51

/-! ### Naming rule (lines 77-83) -/

lemma afterFirstUnderscore_of_not_mem (l : List Char) (h : ('_' ∈ l) → False) :
    afterFirstUnderscore l = none := by
  induction l with
  | nil => rfl
  | cons c cs ih =>
    have hc : ¬ c = '_' := fun hc => h (by simp [hc])
    simp only [afterFirstUnderscore, if_neg hc]
    exact ih (fun hm => h (List.mem_cons_of_mem _ hm))

lemma afterFirstUnderscore_append (l1 l2 : List Char) (h : ('_' ∈ l1) → False) :
    afterFirstUnderscore (l1 ++ '_' :: l2) = some l2 := by
  induction l1 with
  | nil => simp [afterFirstUnderscore]
  | cons c cs ih =>
    have hc : ¬ c = '_' := fun hc => h (by simp [hc])
    simp only [List.cons_append, afterFirstUnderscore, if_neg hc]
    exact ih (fun hm => h (List.mem_cons_of_mem _ hm))

/-- C1: the new name computed for a duplicated view is the discipline prefix
followed by the part of the source name after its first underscore; when the
source name has no underscore, the prefix followed by the whole name.  Any
name with an underscore is `s1 ++ "_" ++ s2` with `s1` underscore-free, and
everything up to and including that first underscore is discarded. -/
theorem new_name_after_first_underscore (pre s1 s2 w : String)
    (h1 : ('_' ∈ s1.data) → False) (hw : ('_' ∈ w.data) → False) :
    computeNewName pre (s1 ++ "_" ++ s2) = pre ++ s2 ∧ computeNewName pre w = pre ++ w := by
  constructor
  · have hd : (s1 ++ "_" ++ s2).data = s1.data ++ '_' :: s2.data := by
      simp [String.data_append]
    have key : afterFirstUnderscore (s1 ++ "_" ++ s2).data = some s2.data := by
      rw [hd]; exact afterFirstUnderscore_append _ _ h1
    rw [computeNewName, key]
  · have key : afterFirstUnderscore w.data = none := afterFirstUnderscore_of_not_mem _ hw
    rw [computeNewName, key]

/-- C1 witness: `"X_Y_Z"` with prefix `"A_"` gives `"A_Y_Z"`, and a name
with no underscore just gets the prefix. -/
theorem new_name_after_first_underscore_witness :
    computeNewName "A_" ("X" ++ "_" ++ "Y_Z") = "A_" ++ "Y_Z" ∧
    computeNewName "MD_" "ViewName" = "MD_" ++ "ViewName" :=
  ⟨(new_name_after_first_underscore "A_" "X" "Y_Z" "ViewName" (by decide) (by decide)).1,
   (new_name_after_first_underscore "MD_" "X" "Y_Z" "ViewName" (by decide) (by decide)).2⟩

/-! ### The rename retry loop (lines 86-92) -/

lemma renameLoop_taken (d : Doc) (vid : Nat) (old n : String) (fuel : Nat)
    (h : nameTaken d vid n = true) :
    renameLoop d vid old n (fuel + 1) = renameLoop d vid old (n ++ "*") fuel := by
  simp [renameLoop, h]

lemma renameLoop_free (d : Doc) (vid : Nat) (old n : String) (fuel : Nat)
    (h : nameTaken d vid n = false) :
    renameLoop d vid old n (fuel + 1) = (setViewName d vid n, n, [old ++ " -> " ++ n]) := by
  simp [renameLoop, h]

/-- C3: the rename loop runs for at most 20 attempts and appends exactly one
asterisk to the candidate after every colliding attempt; in particular, when
the first attempt collides and the second does not, the assigned name is the
computed name with exactly one asterisk appended. -/
theorem rename_retry_appends_one_star (d : Doc) (vid : Nat) (old n : String)
    (h1 : nameTaken d vid n = true) (h2 : nameTaken d vid (n ++ "*") = false) :
    renameLoop d vid old n 20
      = (setViewName d vid (n ++ "*"), n ++ "*", [old ++ " -> " ++ (n ++ "*")]) ∧
    ∀ (fuel : Nat) (m : String), nameTaken d vid m = true →
      renameLoop d vid old m (fuel + 1) = renameLoop d vid old (m ++ "*") fuel := by
  refine ⟨?_, fun fuel m hm => renameLoop_taken d vid old m fuel hm⟩
  rw [show (20 : Nat) = 19 + 1 from rfl, renameLoop_taken d vid old n 19 h1]
  rw [show (19 : Nat) = 18 + 1 from rfl, renameLoop_free d vid old (n ++ "*") 18 h2]

/-- C3 witness: with `"A_1"` taken and `"A_1*"` free, the loop assigns
`"A_1*"`. -/
theorem rename_retry_appends_one_star_witness :
    renameLoop docOneStar 5 "V_1" "A_1" 20
      = (setViewName docOneStar 5 ("A_1" ++ "*"), "A_1" ++ "*",
         ["V_1" ++ " -> " ++ ("A_1" ++ "*")]) :=
  (rename_retry_appends_one_star docOneStar 5 "V_1" "A_1" (by decide) (by decide)).1

lemma cand_shift (n : String) (k : Nat) : cand (n ++ "*") k = cand n (k + 1) := by
  induction k with
  | zero => rfl
  | succ k ih => simp only [cand, ih]

lemma renameLoop_all_taken (d : Doc) (vid : Nat) (old : String) :
    ∀ (fuel : Nat) (n : String), (∀ k < fuel, nameTaken d vid (cand n k) = true) →
      renameLoop d vid old n fuel = (d, cand n fuel, []) := by
  intro fuel
  induction fuel with
  | zero => intro n _; rfl
  | succ fuel ih =>
    intro n h
    have h0 : nameTaken d vid n = true := by
      have := h 0 (Nat.succ_pos fuel)
      simpa [cand] using this
    rw [renameLoop_taken d vid old n fuel h0]
    have hrest : ∀ k < fuel, nameTaken d vid (cand (n ++ "*") k) = true := by
      intro k hk
      have := h (k + 1) (Nat.succ_lt_succ hk)
      simpa [cand_shift] using this
    rw [ih (n ++ "*") hrest, cand_shift]

/-- Whatever the collisions, a per-view step whose `Duplicate` call does not
raise returns normally: the bare `except:` of lines 91-92 swallows every
rename failure. -/
lemma step_isOk (h : Host) (pre tname : String) (d : Doc) (cnt : Nat) (out : List String)
    (vid : Nat) (hne : ∀ v : RView, findView d vid = some v → h.dupErr d v.id = none) :
    ∃ st, step h pre tname (d, cnt, out) vid = Except.ok st := by
  cases hv : findView d vid with
  | none => exact ⟨(d, cnt, out), by simp [step, hv]⟩
  | some v =>
    cases h3 : v.is3D with
    | false => exact ⟨(d, cnt, out), by simp [step, hv, h3]⟩
    | true =>
      have he : h.dupErr d v.id = none := hne v hv
      rcases hrl : renameLoop (duplicateView h d v).1 (duplicateView h d v).2 v.name
          (computeNewName pre v.name) 20 with ⟨d2, nn, log⟩
      rcases htp : templatePhase tname d2 (duplicateView h d v).2 nn with ⟨d3, diag⟩
      refine ⟨(d3, cnt + 1, out ++ log ++ diag), ?_⟩
      simp only [step, hv, h3, if_true, he, duplicateView] at hrl htp ⊢
      rw [hrl, htp]

/-- C4: when all 20 rename attempts collide, the rename loop leaves the
document — and so the duplicated view's name — unchanged, produces no
console line, and the per-view step still returns normally (no exception
escapes, so the batch keeps going). -/
theorem rename_exhaustion_keeps_name (d : Doc) (vid : Nat) (old n : String)
    (h : ∀ k < 20, nameTaken d vid (cand n k) = true) :
    renameLoop d vid old n 20 = (d, cand n 20, []) ∧
    ∀ (h2 : Host) (pre tname : String) (cnt : Nat) (out : List String) (wid : Nat),
      (∀ v : RView, findView d wid = some v → h2.dupErr d v.id = none) →
      ∃ st, step h2 pre tname (d, cnt, out) wid = Except.ok st :=
  ⟨renameLoop_all_taken d vid old 20 n h,
   fun h2 pre tname cnt out wid hne => step_isOk h2 pre tname d cnt out wid hne⟩

/-- C4 witness: with all 20 candidates taken, the loop returns the document
unchanged. -/
theorem rename_exhaustion_keeps_name_witness :
    renameLoop docAllTaken 100 "old" "B" 20 = (docAllTaken, cand "B" 20, []) :=
  (rename_exhaustion_keeps_name docAllTaken 100 "old" "B" (by decide)).1

/-! ### Frame reasoning: the loop only appends fresh views and edits them -/

lemma docExtends_refl (d : Doc) : DocExtends d d :=
  ⟨Nat.le_refl _, [], by simp, by simp⟩

lemma map_eq_self {f : RView → RView} {l : List RView} (h : ∀ a ∈ l, f a = a) :
    l.map f = l := by
  induction l with
  | nil => rfl
  | cons a l ih =>
    rw [List.map_cons, h a (List.mem_cons_self a l),
      ih (fun b hb => h b (List.mem_cons_of_mem a hb))]

/-- Editing the view with a fresh id `did` (name or template field) keeps the
extension: views of `d0` all have smaller ids, so the map fixes them. -/
lemma docExtends_update (d0 d : Doc) (hwf : docWF d0) (hd : DocExtends d0 d) (did : Nat)
    (hdid : d0.nextId ≤ did) (g : RView → RView) (hgid : ∀ v, (g v).id = v.id) :
    DocExtends d0
      (Doc.mk (d.views.map (fun v => if v.id = did then g v else v)) d.nextId) := by
  obtain ⟨hle, extra, hv, hx⟩ := hd
  refine ⟨hle, extra.map (fun v => if v.id = did then g v else v), ?_, ?_⟩
  · show d.views.map (fun v => if v.id = did then g v else v)
      = d0.views ++ extra.map (fun v => if v.id = did then g v else v)
    rw [hv, List.map_append]
    congr 1
    apply map_eq_self
    intro a ha
    have : a.id ≠ did := Nat.ne_of_lt (Nat.lt_of_lt_of_le (hwf a ha) hdid)
    simp [this]
  · intro x hx'
    obtain ⟨y, hy, rfl⟩ := List.mem_map.mp hx'
    have hyid : (if y.id = did then g y else y).id = y.id := by
      split
      · exact hgid y
      · rfl
    rw [hyid]
    exact hx y hy

lemma docExtends_setViewName (d0 d : Doc) (hwf : docWF d0) (hd : DocExtends d0 d)
    (did : Nat) (hdid : d0.nextId ≤ did) (n : String) :
    DocExtends d0 (setViewName d did n) :=
  docExtends_update d0 d hwf hd did hdid
    (fun v => RView.mk v.id n v.is3D v.viewTemplateId) (fun _ => rfl)

lemma docExtends_setViewTemplate (d0 d : Doc) (hwf : docWF d0) (hd : DocExtends d0 d)
    (did : Nat) (hdid : d0.nextId ≤ did) (tid : Nat) :
    DocExtends d0 (setViewTemplate d did tid) :=
  docExtends_update d0 d hwf hd did hdid
    (fun v => RView.mk v.id v.name v.is3D (some tid)) (fun _ => rfl)

lemma docExtends_duplicate (d0 d : Doc) (hd : DocExtends d0 d) (h : Host) (v : RView) :
    DocExtends d0 (duplicateView h d v).1 := by
  obtain ⟨hle, extra, hv, hx⟩ := hd
  refine ⟨Nat.le_succ_of_le hle,
    extra ++ [RView.mk d.nextId (h.dupName v.name) v.is3D v.viewTemplateId], ?_, ?_⟩
  · simp [duplicateView, hv]
  · intro x hx'
    rcases List.mem_append.mp hx' with h1 | h1
    · exact hx x h1
    · rw [List.mem_singleton.mp h1]
      exact hle

lemma renameLoop_doc_cases (d : Doc) (vid : Nat) (old : String) :
    ∀ (fuel : Nat) (n : String),
      (renameLoop d vid old n fuel).1 = d ∨
      ∃ m, (renameLoop d vid old n fuel).1 = setViewName d vid m := by
  intro fuel
  induction fuel with
  | zero => intro n; left; rfl
  | succ fuel ih =>
    intro n
    cases hc : nameTaken d vid n with
    | true => rw [renameLoop_taken d vid old n fuel hc]; exact ih (n ++ "*")
    | false => rw [renameLoop_free d vid old n fuel hc]; right; exact ⟨n, rfl⟩

lemma docExtends_renameLoop (d0 d : Doc) (hwf : docWF d0) (hd : DocExtends d0 d)
    (vid : Nat) (hvid : d0.nextId ≤ vid) (old n : String) (fuel : Nat) :
    DocExtends d0 (renameLoop d vid old n fuel).1 := by
  rcases renameLoop_doc_cases d vid old fuel n with hcase | ⟨m, hcase⟩ <;> rw [hcase]
  · exact hd
  · exact docExtends_setViewName d0 d hwf hd vid hvid m

lemma docExtends_templatePhase (d0 d : Doc) (hwf : docWF d0) (hd : DocExtends d0 d)
    (tname : String) (did : Nat) (hdid : d0.nextId ≤ did) (nn : String) :
    DocExtends d0 (templatePhase tname d did nn).1 := by
  rw [templatePhase]
  cases findTemplate d tname with
  | none => exact hd
  | some t => exact docExtends_setViewTemplate d0 d hwf hd did hdid t.id

/-- Dereferencing an id the original document already used ignores the
appended fresh views: the selection's view objects stay valid and stable. -/
lemma findView_stable (d0 d : Doc) (hd : DocExtends d0 d)
    (vid : Nat) (hvid : vid < d0.nextId) : findView d vid = findView d0 vid := by
  obtain ⟨hle, extra, hv, hx⟩ := hd
  rw [findView, findView, hv, List.find?_append]
  have hnone : extra.find? (fun v => v.id == vid) = none := by
    rw [List.find?_eq_none]
    intro x hxm hbeq
    have : x.id = vid := by simpa using hbeq
    exact Nat.not_lt.mpr (hx x hxm) (this ▸ hvid)
  rw [hnone]
  cases d0.views.find? (fun v => v.id == vid) <;> rfl

/-- Canonical form of a per-view step on a 3D view whose `Duplicate` call
does not raise: duplicate, rename (20 retries), template phase, count + 1. -/
lemma step_eq (h : Host) (pre tname : String) (d : Doc) (cnt : Nat) (out : List String)
    (vid : Nat) (v : RView) (hv : findView d vid = some v) (h3 : v.is3D = true)
    (he : h.dupErr d v.id = none) :
    step h pre tname (d, cnt, out) vid =
      Except.ok
        ((templatePhase tname
            (renameLoop (duplicateView h d v).1 (duplicateView h d v).2 v.name
              (computeNewName pre v.name) 20).1
            (duplicateView h d v).2
            (renameLoop (duplicateView h d v).1 (duplicateView h d v).2 v.name
              (computeNewName pre v.name) 20).2.1).1,
         cnt + 1,
         out ++ (renameLoop (duplicateView h d v).1 (duplicateView h d v).2 v.name
            (computeNewName pre v.name) 20).2.2
            ++ (templatePhase tname
              (renameLoop (duplicateView h d v).1 (duplicateView h d v).2 v.name
                (computeNewName pre v.name) 20).1
              (duplicateView h d v).2
              (renameLoop (duplicateView h d v).1 (duplicateView h d v).2 v.name
                (computeNewName pre v.name) 20).2.1).2) := by
  rcases hrl : renameLoop (duplicateView h d v).1 (duplicateView h d v).2 v.name
      (computeNewName pre v.name) 20 with ⟨d2, nn, log⟩
  rcases htp : templatePhase tname d2 (duplicateView h d v).2 nn with ⟨d3, diag⟩
  simp only [step, hv, h3, if_true, he, duplicateView] at hrl htp ⊢
  rw [hrl, htp]

lemma step_skip_none (h : Host) (pre tname : String) (d : Doc) (cnt : Nat)
    (out : List String) (vid : Nat) (hv : findView d vid = none) :
    step h pre tname (d, cnt, out) vid = Except.ok (d, cnt, out) := by
  simp [step, hv]

lemma step_skip_not3D (h : Host) (pre tname : String) (d : Doc) (cnt : Nat)
    (out : List String) (vid : Nat) (v : RView) (hv : findView d vid = some v)
    (h3 : v.is3D = false) :
    step h pre tname (d, cnt, out) vid = Except.ok (d, cnt, out) := by
  simp [step, hv, h3]

/-- A step that returns normally extends the original document: it only
appends fresh views and edits views with fresh ids. -/
lemma step_docExtends (h : Host) (pre tname : String) (d0 : Doc) (hwf : docWF d0)
    (d : Doc) (cnt : Nat) (out : List String) (vid : Nat) (hd : DocExtends d0 d)
    (st' : Doc × Nat × List String)
    (hok : step h pre tname (d, cnt, out) vid = Except.ok st') : DocExtends d0 st'.1 := by
  cases hv : findView d vid with
  | none =>
    rw [step_skip_none h pre tname d cnt out vid hv] at hok
    cases hok
    exact hd
  | some v =>
    cases h3 : v.is3D with
    | false =>
      rw [step_skip_not3D h pre tname d cnt out vid v hv h3] at hok
      cases hok
      exact hd
    | true =>
      cases he : h.dupErr d v.id with
      | some e => simp [step, hv, h3, he] at hok
      | none =>
        rw [step_eq h pre tname d cnt out vid v hv h3 he] at hok
        cases hok
        have hd1 : DocExtends d0 (duplicateView h d v).1 :=
          docExtends_duplicate d0 d hd h v
        have hdid : d0.nextId ≤ (duplicateView h d v).2 := hd.1
        have hd2 : DocExtends d0
            (renameLoop (duplicateView h d v).1 (duplicateView h d v).2 v.name
              (computeNewName pre v.name) 20).1 :=
          docExtends_renameLoop d0 (duplicateView h d v).1 hwf hd1
            (duplicateView h d v).2 hdid v.name (computeNewName pre v.name) 20
        exact docExtends_templatePhase d0 _ hwf hd2 tname (duplicateView h d v).2 hdid _

/-- A step that returns normally adds one to the counter exactly when the
selected id denotes a 3D view of the original document. -/
lemma step_count (h : Host) (pre tname : String) (d0 : Doc)
    (d : Doc) (cnt : Nat) (out : List String) (vid : Nat) (hd : DocExtends d0 d)
    (hvid : vid < d0.nextId) (st' : Doc × Nat × List String)
    (hok : step h pre tname (d, cnt, out) vid = Except.ok st') :
    st'.2.1 = cnt + (if is3DSel d0 vid then 1 else 0) := by
  have hstable := findView_stable d0 d hd vid hvid
  cases hv : findView d0 vid with
  | none =>
    rw [step_skip_none h pre tname d cnt out vid (hstable.trans hv)] at hok
    cases hok
    simp [is3DSel, hv]
  | some v =>
    cases h3 : v.is3D with
    | false =>
      rw [step_skip_not3D h pre tname d cnt out vid v (hstable.trans hv) h3] at hok
      cases hok
      simp [is3DSel, hv, h3]
    | true =>
      cases he : h.dupErr d v.id with
      | some e => simp [step, hstable.trans hv, h3, he] at hok
      | none =>
        rw [step_eq h pre tname d cnt out vid v (hstable.trans hv) h3 he] at hok
        cases hok
        simp [is3DSel, hv, h3]

/-- The loop only appends fresh views and edits them, run after run. -/
lemma runLoop_docExtends (h : Host) (pre tname : String) (d0 : Doc) (hwf : docWF d0) :
    ∀ (sel : List Nat) (d : Doc) (cnt : Nat) (out : List String)
      (st' : Doc × Nat × List String), DocExtends d0 d →
      runLoop h pre tname (d, cnt, out) sel = Except.ok st' → DocExtends d0 st'.1 := by
  intro sel
  induction sel with
  | nil =>
    intro d cnt out st' hd hok
    cases hok
    exact hd
  | cons vid rest ih =>
    intro d cnt out st' hd hok
    rw [runLoop] at hok
    cases hstep : step h pre tname (d, cnt, out) vid with
    | error e => rw [hstep] at hok; cases hok
    | ok st1 =>
      rw [hstep] at hok
      obtain ⟨d1, c1, o1⟩ := st1
      exact ih d1 c1 o1 st'
        (step_docExtends h pre tname d0 hwf d cnt out vid hd (d1, c1, o1) hstep) hok

/-- Across a normally completed loop, the counter increases by the number of
selection entries denoting 3D views of the original document. -/
lemma runLoop_count (h : Host) (pre tname : String) (d0 : Doc) (hwf : docWF d0) :
    ∀ (sel : List Nat) (d : Doc) (cnt : Nat) (out : List String)
      (st' : Doc × Nat × List String), DocExtends d0 d →
      (∀ vid ∈ sel, vid < d0.nextId) →
      runLoop h pre tname (d, cnt, out) sel = Except.ok st' →
      st'.2.1 = cnt + (sel.filter (fun vid => is3DSel d0 vid)).length := by
  intro sel
  induction sel with
  | nil =>
    intro d cnt out st' _ _ hok
    cases hok
    simp
  | cons vid rest ih =>
    intro d cnt out st' hd hsel hok
    rw [runLoop] at hok
    cases hstep : step h pre tname (d, cnt, out) vid with
    | error e => rw [hstep] at hok; cases hok
    | ok st1 =>
      rw [hstep] at hok
      obtain ⟨d1, c1, o1⟩ := st1
      have hvid : vid < d0.nextId := hsel vid (List.mem_cons_self vid rest)
      have hd1 : DocExtends d0 d1 :=
        step_docExtends h pre tname d0 hwf d cnt out vid hd (d1, c1, o1) hstep
      have hc1 : c1 = cnt + (if is3DSel d0 vid then 1 else 0) :=
        step_count h pre tname d0 d cnt out vid hd hvid (d1, c1, o1) hstep
      have hrest := ih d1 c1 o1 st' hd1
        (fun w hw => hsel w (List.mem_cons_of_mem vid hw)) hok
      rw [hrest, hc1, List.filter_cons]
      cases hb : is3DSel d0 vid
      · simp
      · simp
        omega

/-! ### Main-level behaviour -/

/-- C2: an exception in the per-view loop rolls the whole transaction back —
the resulting document is the one from before the transaction, no success
summary is shown, and the only alert quotes the exception's message. -/
theorem exception_rolls_back_transaction (h : Host) (d : Doc) (sel : List Nat)
    (s pre tname e : String) (hne : sel.isEmpty = false)
    (hs : lookupSystem s = some (pre, tname))
    (herr : runLoop h pre tname (d, 0, []) sel = Except.error e) :
    main h d sel (some s) = RunResult.mk d ["An error occurred: " ++ e] [] false := by
  simp [main, hne, hs, herr]

/-- C2 witness: a raising `Duplicate` leaves `docW` untouched and alerts
with the message. -/
theorem exception_rolls_back_transaction_witness :
    main hostBoom docW [0] (some "Architectural")
      = RunResult.mk docW ["An error occurred: " ++ "boom"] [] false :=
  exception_rolls_back_transaction hostBoom docW [0] "Architectural" "A_"
    "ARCHITECTURE GLUE" "boom" rfl rfl rfl

/-- C6: an empty selection alerts `No Views Selected` and exits, and a
non-empty selection with no chosen discipline alerts `No system selected`
and exits; both before the transaction, with the document untouched. -/
theorem aborts_before_transaction (h : Host) (d : Doc) (sel : List Nat)
    (sys : Option String) :
    (sel = [] → main h d sel sys = RunResult.mk d ["No Views Selected"] [] true) ∧
    (sel ≠ [] → main h d sel none = RunResult.mk d ["No system selected"] [] true) := by
  constructor
  · rintro rfl
    rfl
  · intro hne
    have : sel.isEmpty = false := List.isEmpty_eq_false.mpr hne
    simp [main, this]

lemma find?_split {α : Type} (p : α → Bool) :
    ∀ (l : List α) (a : α), l.find? p = some a →
      p a = true ∧ ∃ l1 l2, l = l1 ++ a :: l2 ∧ ∀ u ∈ l1, p u = false := by
  intro l
  induction l with
  | nil => intro a h; cases h
  | cons x xs ih =>
    intro a h
    cases hx : p x with
    | true =>
      rw [List.find?_cons_of_pos _ hx] at h
      injection h with h
      subst h
      exact ⟨hx, [], xs, rfl, by simp⟩
    | false =>
      rw [List.find?_cons_of_neg _ (by simp [hx])] at h
      obtain ⟨hp, l1, l2, hl, hu⟩ := ih a h
      refine ⟨hp, x :: l1, l2, by rw [hl, List.cons_append], ?_⟩
      intro u hu'
      rcases List.mem_cons.mp hu' with rfl | hmem
      · exact hx
      · exact hu u hmem

/-- C5: the template search scans the document's views linearly and takes
the first whose name equals the target exactly; a found template's id is
assigned to the duplicated view, a missing one only prints a diagnostic;
and either way the per-view step returns normally with the counter
incremented. -/
theorem template_search_first_exact_match :
    (∀ (d : Doc) (tn : String) (t : RView), findTemplate d tn = some t →
      t.name = tn ∧ ∃ l1 l2, d.views = l1 ++ t :: l2 ∧ ∀ u ∈ l1, u.name ≠ tn) ∧
    (∀ (tn : String) (d : Doc) (did : Nat) (nn : String) (t : RView),
      findTemplate d tn = some t →
      templatePhase tn d did nn = (setViewTemplate d did t.id, [])) ∧
    (∀ (tn : String) (d : Doc) (did : Nat) (nn : String),
      findTemplate d tn = none →
      templatePhase tn d did nn =
        (d, ["Template \x27" ++ tn ++ "\x27 not found for \x27" ++ nn ++ "\x27"])) ∧
    (∀ (h : Host) (pre tn : String) (d : Doc) (cnt : Nat) (out : List String)
      (vid : Nat) (v : RView),
      findView d vid = some v → v.is3D = true → h.dupErr d v.id = none →
      ∃ d3 diag, step h pre tn (d, cnt, out) vid =
        Except.ok (d3, cnt + 1,
          out ++ (renameLoop (duplicateView h d v).1 (duplicateView h d v).2 v.name
            (computeNewName pre v.name) 20).2.2 ++ diag)) := by
  refine ⟨?_, ?_, ?_, ?_⟩
  · intro d tn t ht
    have ht' : d.views.find? (fun u : RView => u.name == tn) = some t := ht
    obtain ⟨hp, l1, l2, hl, hu⟩ := find?_split (fun u : RView => u.name == tn) d.views t ht'
    refine ⟨eq_of_beq hp, l1, l2, hl, ?_⟩
    intro u hu'
    exact beq_eq_false_iff_ne.mp (hu u hu')
  · intro tn d did nn t ht
    rw [templatePhase, ht]
  · intro tn d did nn ht
    rw [templatePhase, ht]
  · intro h pre tn d cnt out vid v hv h3 he
    exact ⟨_, _, step_eq h pre tn d cnt out vid v hv h3 he⟩

/-- C8: the discipline table is a fixed five-entry lookup — one entry per
offered label, each carrying its prefix and template name — and looking a
discipline up consults nothing but the table (in particular, no document). -/
theorem discipline_mapping_is_fixed_table :
    system_mapping.length = 5 ∧
    system_mapping.map (fun e => e.1) = options ∧
    (∀ s ∈ options, (lookupSystem s).isSome = true) ∧
    (∀ s : String, (lookupSystem s).isSome = true → s ∈ options) ∧
    lookupSystem "Architectural" = some ("A_", "ARCHITECTURE GLUE") ∧
    lookupSystem "Mechanical" = some ("MD_", "MECHANICAL GLUE") ∧
    lookupSystem "Plumbing" = some ("PL_", "PLUMBING GLUE") ∧
    lookupSystem "Fire Protection" = some ("FP_", "FIRE PROTECTION GLUE") ∧
    lookupSystem "Electrical" = some ("EE_", "ELECTRICAL GLUE") := by
  refine ⟨rfl, rfl, by decide, ?_, rfl, rfl, rfl, rfl, rfl⟩
  intro s hs
  rw [lookupSystem] at hs
  cases hf : system_mapping.find? (fun e => e.1 == s) with
  | none => rw [hf] at hs; cases hs
  | some entry =>
    have hmem : entry ∈ system_mapping := List.mem_of_find?_eq_some hf
    have hbeq : (entry.1 == s) = true :=
      @List.find?_some _ (fun e => e.1 == s) entry system_mapping hf
    have heq : entry.1 = s := eq_of_beq hbeq
    rw [← heq]
    fin_cases hmem <;> decide

/-- C7: in a run that completes, only the 3D entries of the selection are
processed — a non-3D entry leaves document, counter and console exactly as
they were — and the count in the summary dialog is exactly the number of
selection entries that are 3D views. -/
theorem only_3d_views_counted (h : Host) (d : Doc) (sel : List Nat) (s pre tname : String)
    (hwf : docWF d) (hsel : ∀ vid ∈ sel, vid < d.nextId) (hne : sel.isEmpty = false)
    (hs : lookupSystem s = some (pre, tname)) (d2 : Doc) (cnt : Nat) (out : List String)
    (hok : runLoop h pre tname (d, 0, []) sel = Except.ok (d2, cnt, out)) :
    cnt = (sel.filter (fun vid => is3DSel d vid)).length ∧
    main h d sel (some s) =
      RunResult.mk d2
        [toString ((sel.filter (fun vid => is3DSel d vid)).length) ++
          " views duplicated, renamed, and template applied."] out false ∧
    (∀ (d' : Doc) (cnt' : Nat) (out' : List String) (vid : Nat) (v : RView),
      findView d' vid = some v → v.is3D = false →
      step h pre tname (d', cnt', out') vid = Except.ok (d', cnt', out')) := by
  have hcnt : cnt = (sel.filter (fun vid => is3DSel d vid)).length := by
    simpa using runLoop_count h pre tname d hwf sel d 0 [] (d2, cnt, out)
      (docExtends_refl d) hsel hok
  refine ⟨hcnt, ?_, ?_⟩
  · simp [main, hne, hs, hok, hcnt]
  · intro d' cnt' out' vid v hv h3
    exact step_skip_not3D h pre tname d' cnt' out' vid v hv h3

/-- C7 witness: of the selected views 0 (3D) and 1 (not 3D) exactly one is
counted. -/
theorem only_3d_views_counted_witness :
    1 = (([0, 1] : List Nat).filter (fun vid => is3DSel docW vid)).length ∧
    main hostOk docW [0, 1] (some "Architectural") =
      RunResult.mk docWAfter
        [toString ((([0, 1] : List Nat).filter (fun vid => is3DSel docW vid)).length) ++
          " views duplicated, renamed, and template applied."] ["V_1 -> A_1"] false ∧
    (∀ (d' : Doc) (cnt' : Nat) (out' : List String) (vid : Nat) (v : RView),
      findView d' vid = some v → v.is3D = false →
      step hostOk "A_" "ARCHITECTURE GLUE" (d', cnt', out') vid = Except.ok (d', cnt', out')) :=
  only_3d_views_counted hostOk docW [0, 1] "Architectural" "A_" "ARCHITECTURE GLUE"
    (by decide) (by decide) rfl rfl docWAfter 1 ["V_1 -> A_1"] rfl

/-- C9: a run that completes only ever appends views with fresh element ids:
every view of the original document — its name and its view-template
assignment — is still there, first and unchanged. -/
theorem originals_never_modified (h : Host) (pre tname : String) (d : Doc)
    (sel : List Nat) (hwf : docWF d) (d2 : Doc) (cnt : Nat) (out : List String)
    (hok : runLoop h pre tname (d, 0, []) sel = Except.ok (d2, cnt, out)) :
    ∃ extra : List RView, d2.views = d.views ++ extra ∧ ∀ x ∈ extra, d.nextId ≤ x.id :=
  (runLoop_docExtends h pre tname d hwf sel d 0 [] (d2, cnt, out)
    (docExtends_refl d) hok).2

/-- C9 witness: after the run on `docW`, views 0-2 are unchanged and the
only addition has a fresh id. -/
theorem originals_never_modified_witness :
    ∃ extra : List RView, docWAfter.views = docW.views ++ extra ∧
      ∀ x ∈ extra, docW.nextId ≤ x.id :=
  originals_never_modified hostOk "A_" "ARCHITECTURE GLUE" docW [0, 1] (by decide)
    docWAfter 1 ["V_1 -> A_1"] rfl

/-- C10: even when every one of the 20 rename attempts collides, the step
still performs the template phase on the (unrenamed) duplicate and still
increments the duplicated-view counter. -/
theorem rename_failure_still_counts (h : Host) (pre tname : String) (d : Doc)
    (cnt : Nat) (out : List String) (vid : Nat) (v : RView)
    (hv : findView d vid = some v) (h3 : v.is3D = true) (he : h.dupErr d v.id = none)
    (hfail : ∀ k < 20, nameTaken (duplicateView h d v).1 (duplicateView h d v).2
      (cand (computeNewName pre v.name) k) = true) :
    step h pre tname (d, cnt, out) vid =
      Except.ok
        ((templatePhase tname (duplicateView h d v).1 (duplicateView h d v).2
          (cand (computeNewName pre v.name) 20)).1,
         cnt + 1,
         out ++ (templatePhase tname (duplicateView h d v).1 (duplicateView h d v).2
          (cand (computeNewName pre v.name) 20)).2) := by
  rw [step_eq h pre tname d cnt out vid v hv h3 he,
    renameLoop_all_taken (duplicateView h d v).1 (duplicateView h d v).2 v.name 20
      (computeNewName pre v.name) hfail]
  simp

/-- C10 witness: with every candidate taken and no template named `T`, the
step still returns the incremented count and the diagnostic. -/
theorem rename_failure_still_counts_witness :
    step hostOk "A_" "T" (docBlocked, 0, []) 50 =
      Except.ok
        ((templatePhase "T" (duplicateView hostOk docBlocked (RView.mk 50 "V_1" true none)).1
          (duplicateView hostOk docBlocked (RView.mk 50 "V_1" true none)).2
          (cand (computeNewName "A_" (RView.mk 50 "V_1" true none).name) 20)).1,
         0 + 1,
         [] ++ (templatePhase "T" (duplicateView hostOk docBlocked (RView.mk 50 "V_1" true none)).1
          (duplicateView hostOk docBlocked (RView.mk 50 "V_1" true none)).2
          (cand (computeNewName "A_" (RView.mk 50 "V_1" true none).name) 20)).2) :=
  rename_failure_still_counts hostOk "A_" "T" docBlocked 0 [] 50
    (RView.mk 50 "V_1" true none) (by decide) rfl rfl (by decide)

end RevitDup
